import Mathlib

/-!
Verification of the template-matching pipeline in `TM_3.0/cosmos_3.0.py`.

The script loads a color photograph and a grayscale template, computes a
normalized-cross-correlation score map (`res = cv2.matchTemplate(img_gray,
template, cv2.TM_CCOEFF_NORMED)`), extracts the coordinates whose score meets
the threshold (`loc = np.where(res >= threshold)`), attempts an (ineffective)
emptiness check (`if not loc:`), draws one white rectangle per detection while
collecting the points (`for pt in zip(*loc[::-1]): ...`), prints the detection
count, resizes the annotated image to a fixed 1000x960 canvas and writes it to
the hardcoded output path.

The numeric content of the score map is produced by the external OpenCV
library in floating point; we model the score map as an arbitrary
rational-valued grid, so every theorem quantifies over all possible score
assignments, hence in particular over the one OpenCV computes.
-/

namespace Cosmos

/-- A grayscale grid of pixel intensities (the model of `img_gray` and
`template`): a width, a height, and an intensity for each cell (row, column). -/
structure Grid where
  width : Nat
  height : Nat
  pixel : Nat → Nat → ℚ

/-- A color image (the model of `img_rgb`): a width, a height, and a BGR
triple for each cell (row, column). -/
structure ColorImage where
  width : Nat
  height : Nat
  pixel : Nat → Nat → Nat × Nat × Nat

/-- The score map `res`: one similarity score per valid top-left placement of
the template, indexed as `score y x` (row `y`, column `x`), matching the numpy
array layout `res[y, x]`. -/
structure ScoreMap where
  width : Nat
  height : Nat
  score : Nat → Nat → ℚ

/-- The error taxonomy of the spec for the matching step. -/
inductive MatchError where
  | InvalidDimensions : MatchError
  | EmptyInput : MatchError
deriving DecidableEq

/-- Modelled from the spec: `cv2.matchTemplate` is an external library call
whose implementation is not in this repository.  Per the spec it fails with
`InvalidDimensions` when the template is larger than the image in either axis
and with `EmptyInput` when either grid has zero area; otherwise it produces a
score map of dimensions `(W_img - w + 1) x (H_img - h + 1)`.  The
floating-point score values themselves are modelled by the arbitrary function
`scoreFn` (see the file header). -/
def matchTemplate (scoreFn : Nat → Nat → ℚ) (img tmpl : Grid) :
    Except MatchError ScoreMap :=
  if img.width < tmpl.width ∨ img.height < tmpl.height then
    Except.error MatchError.InvalidDimensions
  else if img.width = 0 ∨ img.height = 0 ∨ tmpl.width = 0 ∨ tmpl.height = 0 then
    Except.error MatchError.EmptyInput
  else
    Except.ok ⟨img.width - tmpl.width + 1, img.height - tmpl.height + 1, scoreFn⟩

/-- All cell coordinates `(y, x)` of an `h`-by-`w` grid in row-major (C) order:
ascending row, and ascending column within a row.  This is the order in which
numpy scans a 2-D array. -/
def cellsRowMajor (h w : Nat) : List (Nat × Nat) :=
  (List.range h).flatMap fun y => (List.range w).map fun x => (y, x)

/-- The row-major list of index pairs `(y, x)` at which `res >= threshold`
holds: the contents of the index arrays returned by
`np.where(res >= threshold)`, paired up. -/
def locPairs (res : ScoreMap) (threshold : ℚ) : List (Nat × Nat) :=
  (cellsRowMajor res.height res.width).filter fun p =>
    decide (threshold ≤ res.score p.1 p.2)

/-- `loc = np.where(res >= threshold)` (line 38): for a 2-D array, `np.where`
returns a 2-tuple of index arrays, first the row indices then the column
indices of the cells satisfying the condition, in row-major scan order.  We
model the tuple as a two-element list of lists. -/
def loc (res : ScoreMap) (threshold : ℚ) : List (List Nat) :=
  [(locPairs res threshold).map Prod.fst, (locPairs res threshold).map Prod.snd]

/-- Python truthiness of a tuple, as used by `if not loc:` (line 40): a tuple
is falsy exactly when it has zero components. -/
def tupleIsFalsy (t : List (List Nat)) : Bool :=
  t.isEmpty

/-- `zip(*t)` for a 2-tuple `t` of sequences (as produced by `loc[::-1]`):
zip the two sequences, truncating to the shorter one. -/
def zipStar2 (t : List (List Nat)) : List (Nat × Nat) :=
  match t with
  | a :: b :: _ => a.zip b
  | _ => []

/-- The sequence of points `pt` traversed by `for pt in zip(*loc[::-1])`
(line 44): `loc[::-1]` reverses the tuple `(rows, cols)` to `(cols, rows)`, so
each `pt` is an `(x, y)` coordinate pair.  This is also the final contents of
the `detections` list built by the loop (line 46). -/
def detections (res : ScoreMap) (threshold : ℚ) : List (Nat × Nat) :=
  zipStar2 (loc res threshold).reverse

/-- Whether the pixel at column `px`, row `py` lies on the border band of the
axis-aligned rectangle with corners `topLeft` and `bottomRight`, for a border
of the given thickness: inside the rectangle (inclusive) and within
`thickness` of one of its four edges. -/
def onRectBorder (topLeft bottomRight : Nat × Nat) (thickness : Nat)
    (px py : Nat) : Bool :=
  topLeft.1 ≤ px && px ≤ bottomRight.1 && topLeft.2 ≤ py && py ≤ bottomRight.2 &&
    (px < topLeft.1 + thickness || bottomRight.1 < px + thickness ||
     py < topLeft.2 + thickness || bottomRight.2 < py + thickness)

/-- Modelled from the spec: `cv2.rectangle` is an external drawing primitive
(`drawRectangle(image, topLeft, bottomRight, color, thickness) → image` in the
spec's contract).  It sets every pixel on the rectangle's border band to the
given color and leaves every other pixel unchanged; the image dimensions do
not change. -/
def drawRectangle (img : ColorImage) (topLeft bottomRight : Nat × Nat)
    (color : Nat × Nat × Nat) (thickness : Nat) : ColorImage :=
  { img with
    pixel := fun y x =>
      if onRectBorder topLeft bottomRight thickness x y then color
      else img.pixel y x }

/-- Modelled from the spec: `cv2.resize` is an external resampler
(`resize(image, targetWidth, targetHeight) → image` in the spec's contract).
The result has exactly the target dimensions; each target pixel samples the
source at the proportionally scaled coordinate. -/
def resize (img : ColorImage) (targetWidth targetHeight : Nat) : ColorImage :=
  { width := targetWidth
    height := targetHeight
    pixel := fun y x =>
      img.pixel (y * img.height / targetHeight) (x * img.width / targetWidth) }

/-- The observable outputs of one run of the script: the two or three print
statements (lines 33, 41, 49) and the final `cv2.imwrite` (line 53). -/
inductive OutputEvent where
  | printTemplateDims (w h : Nat) : OutputEvent
  | printNoMatches : OutputEvent
  | printDetectionCount (n : Nat) : OutputEvent
  | writeImage (path : String) (img : ColorImage) : OutputEvent

/-- Is this event the "Sorry, there are no matches..." print of line 41? -/
def isNoMatchesMsg : OutputEvent → Bool
  | OutputEvent.printNoMatches => true
  | _ => false

/-- Is this event an image-file write? -/
def isWriteEvent : OutputEvent → Bool
  | OutputEvent.writeImage _ _ => true
  | _ => false

/-- The mutable state of the script after the matching step (line 36): the
color image being annotated, the grayscale source, the template, the score
map, and the `detections` accumulator list of line 43. -/
structure MatchState where
  img_rgb : ColorImage
  img_gray : Grid
  template : Grid
  res : ScoreMap
  dets : List (Nat × Nat)

/-- The body of the loop of lines 44-46 for one point `pt`: draw a white
rectangle of thickness 2 from `pt` to `(pt[0] + w, pt[1] + h)` on the color
image and append `pt` to the `detections` list.  Only `img_rgb` and `dets` are
written. -/
def annotateStep (st : MatchState) (pt : Nat × Nat) : MatchState :=
  { st with
    img_rgb := drawRectangle st.img_rgb pt
      (pt.1 + st.template.width, pt.2 + st.template.height) (255, 255, 255) 2
    dets := st.dets ++ [pt] }

/-- The loop of lines 44-46: fold `annotateStep` over the points of
`zip(*loc[::-1])`. -/
def annotateLoop (s : MatchState) (threshold : ℚ) : MatchState :=
  (detections s.res threshold).foldl annotateStep s

/-- The hardcoded output path `out = 'Detections.png'` (line 18). -/
def outPath : String := "Detections.png"

/-- Strict row-major precedence on `(y, x)` index pairs: `p` is scanned
strictly before `q` when `p` is on an earlier row, or on the same row in an
earlier column. -/
def rowMajorBefore (p q : Nat × Nat) : Prop :=
  p.1 < q.1 ∨ (p.1 = q.1 ∧ p.2 < q.2)

/-- Strict row-major precedence on `(x, y)` detection pairs (coordinates with
the column first, as emitted by the loop): `p` precedes `q` when `p` has a
strictly smaller `y`, or the same `y` and a strictly smaller `x`. -/
def scanBefore (p q : Nat × Nat) : Prop :=
  p.2 < q.2 ∨ (p.2 = q.2 ∧ p.1 < q.1)

/-- The pipeline from line 33 to line 53: print the template dimensions, run
the matching step, and - when it succeeds - run the (ineffective) emptiness
guard, the annotation loop, the detection-count print, the resize to the fixed
1000x960 canvas, and the single image write.  Returns the emitted output
events in order, together with either the matching error or the final state.
The matching error aborts the run (the script has no handler), so on error the
only event is the dimensions print that precedes the matching call. -/
def runPipeline (scoreFn : Nat → Nat → ℚ) (img_rgb : ColorImage)
    (img_gray template : Grid) (threshold : ℚ) :
    List OutputEvent × Except MatchError MatchState :=
  let ev0 := [OutputEvent.printTemplateDims template.width template.height]
  match matchTemplate scoreFn img_gray template with
  | Except.error e => (ev0, Except.error e)
  | Except.ok res =>
    let ev1 := if tupleIsFalsy (loc res threshold) then
      [OutputEvent.printNoMatches] else []
    let s := annotateLoop ⟨img_rgb, img_gray, template, res, []⟩ threshold
    let ev2 := [OutputEvent.printDetectionCount s.dets.length]
    let imS := resize s.img_rgb 1000 960
    (ev0 ++ ev1 ++ ev2 ++ [OutputEvent.writeImage outPath imS], Except.ok s)

/-! ### Helper lemmas -/

theorem detections_eq_locPairs (res : ScoreMap) (t : ℚ) :
    detections res t = (locPairs res t).map fun p => (p.2, p.1) := by
  show ((locPairs res t).map Prod.snd).zip ((locPairs res t).map Prod.fst) = _
  rw [List.zip_map']

theorem mem_locPairs (res : ScoreMap) (t : ℚ) (y x : Nat) :
    (y, x) ∈ locPairs res t ↔
      y < res.height ∧ x < res.width ∧ t ≤ res.score y x := by
  simp only [locPairs, cellsRowMajor, List.mem_filter, List.mem_flatMap,
    List.mem_map, List.mem_range, decide_eq_true_eq, Prod.mk.injEq]
  constructor
  · rintro ⟨⟨a, ha, b, hb, hay, hbx⟩, hs⟩
    subst hay; subst hbx
    exact ⟨ha, hb, hs⟩
  · rintro ⟨hy, hx, hs⟩
    exact ⟨⟨y, hy, x, hx, rfl, rfl⟩, hs⟩

theorem mem_detections (res : ScoreMap) (t : ℚ) (x y : Nat) :
    (x, y) ∈ detections res t ↔
      y < res.height ∧ x < res.width ∧ t ≤ res.score y x := by
  rw [detections_eq_locPairs]
  constructor
  · rintro hmem
    obtain ⟨p, hp, hpe⟩ := List.mem_map.mp hmem
    obtain ⟨h1, h2⟩ := Prod.mk.injEq .. ▸ hpe
    have : p = (y, x) := by
      cases p; cases h1; cases h2; rfl
    subst this
    exact (mem_locPairs res t y x).mp hp
  · intro h
    exact List.mem_map.mpr ⟨(y, x), (mem_locPairs res t y x).mpr h, rfl⟩

theorem length_detections (res : ScoreMap) (t : ℚ) :
    (detections res t).length = (locPairs res t).length := by
  rw [detections_eq_locPairs, List.length_map]

theorem length_filter_mono {α : Type} (p q : α → Bool) (l : List α)
    (h : ∀ a, q a = true → p a = true) :
    (l.filter q).length ≤ (l.filter p).length := by
  induction l with
  | nil => simp
  | cons a l ih =>
    simp only [List.filter_cons]
    cases hq : q a with
    | true =>
      rw [h a hq]
      simpa using ih
    | false =>
      cases hp : p a with
      | true =>
        simp only [if_true]
        exact ih.trans (Nat.le_succ _)
      | false =>
        simpa using ih

theorem pairwise_cellsRowMajor (h w : Nat) :
    (cellsRowMajor h w).Pairwise rowMajorBefore := by
  induction h with
  | zero => simp [cellsRowMajor]
  | succ n ih =>
    have hsplit : cellsRowMajor (n + 1) w =
        cellsRowMajor n w ++ (List.range w).map fun x => (n, x) := by
      simp [cellsRowMajor, List.range_succ]
    rw [hsplit, List.pairwise_append]
    refine ⟨ih, ?_, ?_⟩
    · rw [List.pairwise_map]
      exact (List.pairwise_lt_range w).imp fun hab => Or.inr ⟨rfl, hab⟩
    · intro a ha b hb
      obtain ⟨ya, hya, xa, _, hae⟩ := by
        simpa [cellsRowMajor, List.mem_flatMap, List.mem_map,
          List.mem_range] using ha
      obtain ⟨xb, _, hbe⟩ := by
        simpa [List.mem_map, List.mem_range] using hb
      left
      rw [← hae, ← hbe]
      exact hya

theorem pairwise_locPairs (res : ScoreMap) (t : ℚ) :
    (locPairs res t).Pairwise rowMajorBefore :=
  List.Pairwise.sublist (List.filter_sublist _)
    (pairwise_cellsRowMajor res.height res.width)

theorem foldl_annotateStep_gray (l : List (Nat × Nat)) (s : MatchState) :
    (l.foldl annotateStep s).img_gray = s.img_gray := by
  induction l generalizing s with
  | nil => rfl
  | cons a l ih => exact (ih (annotateStep s a)).trans rfl

theorem foldl_annotateStep_template (l : List (Nat × Nat)) (s : MatchState) :
    (l.foldl annotateStep s).template = s.template := by
  induction l generalizing s with
  | nil => rfl
  | cons a l ih => exact (ih (annotateStep s a)).trans rfl

theorem foldl_annotateStep_res (l : List (Nat × Nat)) (s : MatchState) :
    (l.foldl annotateStep s).res = s.res := by
  induction l generalizing s with
  | nil => rfl
  | cons a l ih => exact (ih (annotateStep s a)).trans rfl

theorem foldl_annotateStep_dets (l : List (Nat × Nat)) (s : MatchState) :
    (l.foldl annotateStep s).dets = s.dets ++ l := by
  induction l generalizing s with
  | nil => simp
  | cons a l ih =>
    rw [List.foldl_cons, ih (annotateStep s a)]
    show (s.dets ++ [a]) ++ l = s.dets ++ a :: l
    simp

theorem foldl_annotateStep_rgb (l : List (Nat × Nat)) (s : MatchState) :
    (l.foldl annotateStep s).img_rgb =
      l.foldl (fun im pt => drawRectangle im pt
        (pt.1 + s.template.width, pt.2 + s.template.height)
        (255, 255, 255) 2) s.img_rgb := by
  induction l generalizing s with
  | nil => rfl
  | cons a l ih =>
    rw [List.foldl_cons, List.foldl_cons, ih (annotateStep s a)]
    rfl

theorem tupleIsFalsy_loc (res : ScoreMap) (t : ℚ) :
    tupleIsFalsy (loc res t) = false :=
  rfl

theorem runPipeline_ok_eq (scoreFn : Nat → Nat → ℚ) (img_rgb : ColorImage)
    (img_gray template : Grid) (t : ℚ) (res : ScoreMap)
    (hok : matchTemplate scoreFn img_gray template = Except.ok res) :
    runPipeline scoreFn img_rgb img_gray template t =
      ([OutputEvent.printTemplateDims template.width template.height,
        OutputEvent.printDetectionCount (detections res t).length,
        OutputEvent.writeImage outPath
          (resize (annotateLoop ⟨img_rgb, img_gray, template, res, []⟩ t).img_rgb
            1000 960)],
       Except.ok (annotateLoop ⟨img_rgb, img_gray, template, res, []⟩ t)) := by
  unfold runPipeline
  rw [hok]
  have hdets : (annotateLoop ⟨img_rgb, img_gray, template, res, []⟩ t).dets =
      detections res t := by
    unfold annotateLoop
    rw [foldl_annotateStep_dets]
    rfl
  dsimp only
  rw [tupleIsFalsy_loc, hdets]
  rfl

theorem scanBefore_ne (p q : Nat × Nat) (h : scanBefore p q) : p ≠ q := by
  rintro rfl
  rcases h with h | ⟨_, h⟩
  · exact lt_irrefl _ h
  · exact lt_irrefl _ h

/-! ### Claim theorems -/

/-- C1: for every score map and threshold, the points traversed by the
detection loop are exactly the score-map coordinates `(x, y)` whose score is
greater than or equal to the threshold (inclusive comparison): every in-range
coordinate meeting the threshold is emitted and no coordinate scoring below it
is. -/
theorem C1_detections_exactly_threshold (res : ScoreMap) (t : ℚ) (x y : Nat) :
    (x, y) ∈ detections res t ↔
      y < res.height ∧ x < res.width ∧ t ≤ res.score y x :=
  mem_detections res t x y

/-- C2: when the matching step succeeds, every detection `(x, y)` satisfies
`x ≤ W_img - w` and `y ≤ H_img - h` (the lower bounds `0 ≤ x`, `0 ≤ y` hold
because coordinates are naturals), and the score stored at `(x, y)` in the
score map is at least the threshold. -/
theorem C2_detection_bounds (scoreFn : Nat → Nat → ℚ) (img tmpl : Grid)
    (res : ScoreMap) (t : ℚ) (x y : Nat)
    (hok : matchTemplate scoreFn img tmpl = Except.ok res)
    (hmem : (x, y) ∈ detections res t) :
    x ≤ img.width - tmpl.width ∧ y ≤ img.height - tmpl.height ∧
      t ≤ res.score y x := by
  have h := (mem_detections res t x y).mp hmem
  unfold matchTemplate at hok
  by_cases h1 : img.width < tmpl.width ∨ img.height < tmpl.height
  · rw [if_pos h1] at hok
    exact absurd hok (by simp)
  · rw [if_neg h1] at hok
    by_cases h2 : img.width = 0 ∨ img.height = 0 ∨ tmpl.width = 0 ∨
        tmpl.height = 0
    · rw [if_pos h2] at hok
      exact absurd hok (by simp)
    · rw [if_neg h2] at hok
      have hres := Except.ok.inj hok
      subst hres
      exact ⟨Nat.lt_succ_iff.mp h.2.1, Nat.lt_succ_iff.mp h.1, h.2.2⟩

/-- C2 witness: a concrete successful run with a detection at the origin. -/
theorem C2_detection_bounds_witness :
    matchTemplate (fun _ _ => (1 : ℚ)) ⟨3, 3, fun _ _ => 0⟩
        ⟨2, 2, fun _ _ => 0⟩ = Except.ok ⟨2, 2, fun _ _ => (1 : ℚ)⟩ ∧
    (0, 0) ∈ detections ⟨2, 2, fun _ _ => (1 : ℚ)⟩ 0 ∧
    (0 ≤ (3 : Nat) - 2 ∧ 0 ≤ (3 : Nat) - 2 ∧
      (0 : ℚ) ≤ ScoreMap.score ⟨2, 2, fun _ _ => (1 : ℚ)⟩ 0 0) := by
  have hok : matchTemplate (fun _ _ => (1 : ℚ)) ⟨3, 3, fun _ _ => 0⟩
      ⟨2, 2, fun _ _ => 0⟩ = Except.ok ⟨2, 2, fun _ _ => (1 : ℚ)⟩ := rfl
  have hmem : (0, 0) ∈ detections ⟨2, 2, fun _ _ => (1 : ℚ)⟩ 0 := by decide
  exact ⟨hok, hmem,
    C2_detection_bounds (fun _ _ => (1 : ℚ)) ⟨3, 3, fun _ _ => 0⟩
      ⟨2, 2, fun _ _ => 0⟩ ⟨2, 2, fun _ _ => (1 : ℚ)⟩ 0 0 0 hok hmem⟩

/-- C3: for the same score map, raising the threshold never increases the
number of detections: if `t1 ≤ t2` then the detection count at `t2` is at most
the count at `t1`. -/
theorem C3_threshold_monotone (res : ScoreMap) (t1 t2 : ℚ) (h : t1 ≤ t2) :
    (detections res t2).length ≤ (detections res t1).length := by
  rw [length_detections, length_detections]
  unfold locPairs
  refine length_filter_mono _ _ _ fun p hp => ?_
  rw [decide_eq_true_eq] at hp ⊢
  exact le_trans h hp

/-- C3 witness: a concrete score map evaluated at thresholds 0 and 1. -/
theorem C3_threshold_monotone_witness :
    (0 : ℚ) ≤ 1 ∧
      (detections ⟨2, 2, fun y x => (y : ℚ) + x⟩ 1).length ≤
        (detections ⟨2, 2, fun y x => (y : ℚ) + x⟩ 0).length :=
  ⟨by norm_num, C3_threshold_monotone ⟨2, 2, fun y x => (y : ℚ) + x⟩ 0 1
    (by norm_num)⟩

/-- C4: the "no matches" message is never printed: `np.where` on a 2-D array
returns a 2-tuple, which is never falsy, so the guard `if not loc:` never
fires, for every score map and every run of the pipeline. -/
theorem C4_no_matches_never_printed :
    (∀ (res : ScoreMap) (t : ℚ), tupleIsFalsy (loc res t) = false) ∧
    (∀ (scoreFn : Nat → Nat → ℚ) (img_rgb : ColorImage)
      (img_gray template : Grid) (t : ℚ),
      ((runPipeline scoreFn img_rgb img_gray template t).1.any isNoMatchesMsg)
        = false) := by
  refine ⟨fun res t => rfl, fun scoreFn img_rgb img_gray template t => ?_⟩
  cases hmt : matchTemplate scoreFn img_gray template with
  | error e =>
    unfold runPipeline
    rw [hmt]
    rfl
  | ok res =>
    rw [runPipeline_ok_eq _ _ _ _ _ _ hmt]
    rfl

/-- C5: a template strictly larger than the image in either axis makes the
matching step fail with `InvalidDimensions`: no score map is produced and the
pipeline emits only the dimensions print, no image write. -/
theorem C5_invalid_dimensions (scoreFn : Nat → Nat → ℚ)
    (img_rgb : ColorImage) (img tmpl : Grid) (t : ℚ)
    (h : img.width < tmpl.width ∨ img.height < tmpl.height) :
    matchTemplate scoreFn img tmpl =
        Except.error MatchError.InvalidDimensions ∧
    runPipeline scoreFn img_rgb img tmpl t =
      ([OutputEvent.printTemplateDims tmpl.width tmpl.height],
        Except.error MatchError.InvalidDimensions) := by
  have hmt : matchTemplate scoreFn img tmpl =
      Except.error MatchError.InvalidDimensions := by
    unfold matchTemplate
    rw [if_pos h]
  refine ⟨hmt, ?_⟩
  unfold runPipeline
  rw [hmt]

/-- C5 witness: a 2-wide template against a 1-wide image. -/
theorem C5_invalid_dimensions_witness :
    (Grid.width ⟨1, 1, fun _ _ => 0⟩ < Grid.width ⟨2, 1, fun _ _ => 0⟩ ∨
      Grid.height ⟨1, 1, fun _ _ => 0⟩ < Grid.height ⟨2, 1, fun _ _ => 0⟩) ∧
    (matchTemplate (fun _ _ => (0 : ℚ)) ⟨1, 1, fun _ _ => 0⟩
        ⟨2, 1, fun _ _ => 0⟩ =
          Except.error MatchError.InvalidDimensions ∧
      runPipeline (fun _ _ => (0 : ℚ)) ⟨1, 1, fun _ _ => (0, 0, 0)⟩
        ⟨1, 1, fun _ _ => 0⟩ ⟨2, 1, fun _ _ => 0⟩ 0 =
          ([OutputEvent.printTemplateDims
              (Grid.width ⟨2, 1, fun _ _ => (0 : ℚ)⟩)
              (Grid.height ⟨2, 1, fun _ _ => (0 : ℚ)⟩)],
            Except.error MatchError.InvalidDimensions)) :=
  ⟨Or.inl (by decide),
    C5_invalid_dimensions (fun _ _ => (0 : ℚ)) ⟨1, 1, fun _ _ => (0, 0, 0)⟩
      ⟨1, 1, fun _ _ => 0⟩ ⟨2, 1, fun _ _ => 0⟩ 0 (Or.inl (by decide))⟩

/-- C6: with zero detections the downstream steps still run unconditionally:
the loop draws no rectangles (the color image is unchanged), the count 0 is
printed, and the unannotated image, resized to 1000x960, is written to the
output path. -/
theorem C6_zero_detections_pipeline (scoreFn : Nat → Nat → ℚ)
    (img_rgb : ColorImage) (img_gray template : Grid) (t : ℚ) (res : ScoreMap)
    (hok : matchTemplate scoreFn img_gray template = Except.ok res)
    (hempty : detections res t = []) :
    runPipeline scoreFn img_rgb img_gray template t =
      ([OutputEvent.printTemplateDims template.width template.height,
        OutputEvent.printDetectionCount 0,
        OutputEvent.writeImage outPath (resize img_rgb 1000 960)],
        Except.ok ⟨img_rgb, img_gray, template, res, []⟩) := by
  rw [runPipeline_ok_eq _ _ _ _ _ _ hok]
  unfold annotateLoop
  dsimp only
  rw [hempty]
  rfl

/-- C6 witness: a run whose single score-map cell is below the threshold. -/
theorem C6_zero_detections_witness :
    matchTemplate (fun _ _ => (0 : ℚ)) ⟨1, 1, fun _ _ => 0⟩
        ⟨1, 1, fun _ _ => 0⟩ = Except.ok ⟨1, 1, fun _ _ => (0 : ℚ)⟩ ∧
    detections ⟨1, 1, fun _ _ => (0 : ℚ)⟩ 1 = [] ∧
    runPipeline (fun _ _ => (0 : ℚ)) ⟨1, 1, fun _ _ => (7, 7, 7)⟩
        ⟨1, 1, fun _ _ => 0⟩ ⟨1, 1, fun _ _ => 0⟩ 1 =
      ([OutputEvent.printTemplateDims (Grid.width ⟨1, 1, fun _ _ => (0 : ℚ)⟩)
          (Grid.height ⟨1, 1, fun _ _ => (0 : ℚ)⟩),
        OutputEvent.printDetectionCount 0,
        OutputEvent.writeImage outPath
          (resize ⟨1, 1, fun _ _ => (7, 7, 7)⟩ 1000 960)],
        Except.ok ⟨⟨1, 1, fun _ _ => (7, 7, 7)⟩, ⟨1, 1, fun _ _ => 0⟩,
          ⟨1, 1, fun _ _ => 0⟩, ⟨1, 1, fun _ _ => (0 : ℚ)⟩, []⟩) := by
  have hok : matchTemplate (fun _ _ => (0 : ℚ)) ⟨1, 1, fun _ _ => 0⟩
      ⟨1, 1, fun _ _ => 0⟩ = Except.ok ⟨1, 1, fun _ _ => (0 : ℚ)⟩ := rfl
  have hempty : detections ⟨1, 1, fun _ _ => (0 : ℚ)⟩ 1 = [] := by decide
  exact ⟨hok, hempty,
    C6_zero_detections_pipeline (fun _ _ => (0 : ℚ))
      ⟨1, 1, fun _ _ => (7, 7, 7)⟩ ⟨1, 1, fun _ _ => 0⟩ ⟨1, 1, fun _ _ => 0⟩ 1
      ⟨1, 1, fun _ _ => (0 : ℚ)⟩ hok hempty⟩

/-- C7: the pipeline is deterministic: two invocations on equal inputs produce
equal output events (hence the same detection sequence in the same order) and
equal final states. -/
theorem C7_deterministic (f g : Nat → Nat → ℚ) (i j : ColorImage)
    (gr gs tm tn : Grid) (t u : ℚ)
    (hf : f = g) (hi : i = j) (hg : gr = gs) (ht : tm = tn) (hth : t = u) :
    runPipeline f i gr tm t = runPipeline g j gs tn u := by
  subst hf
  subst hi
  subst hg
  subst ht
  subst hth
  rfl

/-- C7 witness: two textually identical invocations at a concrete input. -/
theorem C7_deterministic_witness :
    ((fun _ _ => (1 : ℚ) : Nat → Nat → ℚ) = (fun _ _ => (1 : ℚ)) ∧
      (⟨1, 1, fun _ _ => (0, 0, 0)⟩ : ColorImage) = ⟨1, 1, fun _ _ => (0, 0, 0)⟩ ∧
      (⟨1, 1, fun _ _ => 0⟩ : Grid) = ⟨1, 1, fun _ _ => 0⟩ ∧
      (⟨1, 1, fun _ _ => 0⟩ : Grid) = ⟨1, 1, fun _ _ => 0⟩ ∧
      (0 : ℚ) = 0) ∧
    runPipeline (fun _ _ => (1 : ℚ)) ⟨1, 1, fun _ _ => (0, 0, 0)⟩
        ⟨1, 1, fun _ _ => 0⟩ ⟨1, 1, fun _ _ => 0⟩ 0 =
      runPipeline (fun _ _ => (1 : ℚ)) ⟨1, 1, fun _ _ => (0, 0, 0)⟩
        ⟨1, 1, fun _ _ => 0⟩ ⟨1, 1, fun _ _ => 0⟩ 0 :=
  ⟨⟨rfl, rfl, rfl, rfl, rfl⟩,
    C7_deterministic (fun _ _ => (1 : ℚ)) (fun _ _ => (1 : ℚ))
      ⟨1, 1, fun _ _ => (0, 0, 0)⟩ ⟨1, 1, fun _ _ => (0, 0, 0)⟩
      ⟨1, 1, fun _ _ => 0⟩ ⟨1, 1, fun _ _ => 0⟩
      ⟨1, 1, fun _ _ => 0⟩ ⟨1, 1, fun _ _ => 0⟩ 0 0
      rfl rfl rfl rfl rfl⟩

/-- C8: the detections are emitted in the row-major scan order of the score
map - strictly ascending `y`, and strictly ascending `x` within a row - and
therefore contain no duplicate coordinate (no deduplication is needed and no
clustering is performed). -/
theorem C8_scan_order (res : ScoreMap) (t : ℚ) :
    (detections res t).Pairwise scanBefore ∧ (detections res t).Nodup := by
  have hpw : (detections res t).Pairwise scanBefore := by
    rw [detections_eq_locPairs, List.pairwise_map]
    exact (pairwise_locPairs res t).imp fun hab => hab
  exact ⟨hpw, hpw.imp fun hab => scanBefore_ne _ _ hab⟩

/-- C9: a successful run emits exactly one image-write event, at the hardcoded
output path, whose image is the color image annotated by folding the
rectangle-drawing step over the detections and then resized to the fixed
1000x960 canvas, whatever the input image's dimensions. -/
theorem C9_single_write (f : Nat → Nat → ℚ) (i : ColorImage)
    (g tm : Grid) (t : ℚ) (evs : List OutputEvent) (s : MatchState)
    (h : runPipeline f i g tm t = (evs, Except.ok s)) :
    evs.filter isWriteEvent =
      [OutputEvent.writeImage outPath (resize s.img_rgb 1000 960)] ∧
    s.img_rgb = (detections s.res t).foldl
      (fun im pt => drawRectangle im pt (pt.1 + tm.width, pt.2 + tm.height)
        (255, 255, 255) 2) i ∧
    (resize s.img_rgb 1000 960).width = 1000 ∧
    (resize s.img_rgb 1000 960).height = 960 := by
  cases hmt : matchTemplate f g tm with
  | error e =>
    unfold runPipeline at h
    rw [hmt] at h
    dsimp only at h
    exact absurd (congrArg Prod.snd h) (by simp)
  | ok res =>
    rw [runPipeline_ok_eq f i g tm t res hmt] at h
    rw [Prod.mk.injEq] at h
    obtain ⟨hevs, hs⟩ := h
    have hse := Except.ok.inj hs
    subst hse
    subst hevs
    have hres : (annotateLoop ⟨i, g, tm, res, []⟩ t).res = res := by
      unfold annotateLoop
      exact foldl_annotateStep_res _ _
    refine ⟨rfl, ?_, rfl, rfl⟩
    rw [hres]
    unfold annotateLoop
    dsimp only
    rw [foldl_annotateStep_rgb]

/-- C9 witness: a concrete successful run with no detections. -/
theorem C9_single_write_witness :
    runPipeline (fun _ _ => (0 : ℚ)) ⟨1, 1, fun _ _ => (0, 0, 0)⟩
        ⟨1, 1, fun _ _ => 0⟩ ⟨1, 1, fun _ _ => 0⟩ 1 =
      ([OutputEvent.printTemplateDims 1 1, OutputEvent.printDetectionCount 0,
        OutputEvent.writeImage outPath
          (resize ⟨1, 1, fun _ _ => (0, 0, 0)⟩ 1000 960)],
        Except.ok ⟨⟨1, 1, fun _ _ => (0, 0, 0)⟩, ⟨1, 1, fun _ _ => 0⟩,
          ⟨1, 1, fun _ _ => 0⟩, ⟨1, 1, fun _ _ => (0 : ℚ)⟩, []⟩) ∧
    ([OutputEvent.printTemplateDims 1 1, OutputEvent.printDetectionCount 0,
        OutputEvent.writeImage outPath
          (resize ⟨1, 1, fun _ _ => (0, 0, 0)⟩ 1000 960)].filter isWriteEvent =
      [OutputEvent.writeImage outPath
        (resize (MatchState.img_rgb ⟨⟨1, 1, fun _ _ => (0, 0, 0)⟩,
          ⟨1, 1, fun _ _ => 0⟩, ⟨1, 1, fun _ _ => 0⟩,
          ⟨1, 1, fun _ _ => (0 : ℚ)⟩, []⟩) 1000 960)] ∧
      MatchState.img_rgb ⟨⟨1, 1, fun _ _ => (0, 0, 0)⟩, ⟨1, 1, fun _ _ => 0⟩,
          ⟨1, 1, fun _ _ => 0⟩, ⟨1, 1, fun _ _ => (0 : ℚ)⟩, []⟩ =
        (detections (MatchState.res ⟨⟨1, 1, fun _ _ => (0, 0, 0)⟩,
          ⟨1, 1, fun _ _ => 0⟩, ⟨1, 1, fun _ _ => 0⟩,
          ⟨1, 1, fun _ _ => (0 : ℚ)⟩, []⟩) 1).foldl
          (fun im pt => drawRectangle im pt
            (pt.1 + Grid.width ⟨1, 1, fun _ _ => (0 : ℚ)⟩,
             pt.2 + Grid.height ⟨1, 1, fun _ _ => (0 : ℚ)⟩)
            (255, 255, 255) 2) ⟨1, 1, fun _ _ => (0, 0, 0)⟩ ∧
      (resize (MatchState.img_rgb ⟨⟨1, 1, fun _ _ => (0, 0, 0)⟩,
          ⟨1, 1, fun _ _ => 0⟩, ⟨1, 1, fun _ _ => 0⟩,
          ⟨1, 1, fun _ _ => (0 : ℚ)⟩, []⟩) 1000 960).width = 1000 ∧
      (resize (MatchState.img_rgb ⟨⟨1, 1, fun _ _ => (0, 0, 0)⟩,
          ⟨1, 1, fun _ _ => 0⟩, ⟨1, 1, fun _ _ => 0⟩,
          ⟨1, 1, fun _ _ => (0 : ℚ)⟩, []⟩) 1000 960).height = 960) := by
  have h : runPipeline (fun _ _ => (0 : ℚ)) ⟨1, 1, fun _ _ => (0, 0, 0)⟩
      ⟨1, 1, fun _ _ => 0⟩ ⟨1, 1, fun _ _ => 0⟩ 1 =
    ([OutputEvent.printTemplateDims 1 1, OutputEvent.printDetectionCount 0,
      OutputEvent.writeImage outPath
        (resize ⟨1, 1, fun _ _ => (0, 0, 0)⟩ 1000 960)],
      Except.ok ⟨⟨1, 1, fun _ _ => (0, 0, 0)⟩, ⟨1, 1, fun _ _ => 0⟩,
        ⟨1, 1, fun _ _ => 0⟩, ⟨1, 1, fun _ _ => (0 : ℚ)⟩, []⟩) := rfl
  exact ⟨h, C9_single_write (fun _ _ => (0 : ℚ)) ⟨1, 1, fun _ _ => (0, 0, 0)⟩
    ⟨1, 1, fun _ _ => 0⟩ ⟨1, 1, fun _ _ => 0⟩ 1 _ _ h⟩

/-- C10: the annotation loop writes only the color image (and the `detections`
accumulator): the grayscale source image, the template, and the score map are
unchanged from their values at the end of the matching step. -/
theorem C10_annotate_frame (s : MatchState) (t : ℚ) :
    (annotateLoop s t).img_gray = s.img_gray ∧
    (annotateLoop s t).template = s.template ∧
    (annotateLoop s t).res = s.res := by
  unfold annotateLoop
  exact ⟨foldl_annotateStep_gray _ _, foldl_annotateStep_template _ _,
    foldl_annotateStep_res _ _⟩

end Cosmos
